import Mathlib

/-!
Shallow embedding of `src/server/utils/analytics/hot-issue-analyzer.ts`.

The relational store is modelled as explicit list-based state (`DBState`);
the structured-completion service is an external collaborator, so its
(already schema-decoded) reply is passed to the pipeline as an explicit
argument; the SQL queries are translated into list operations, with
`ORDER BY ... DESC` rendered as a stable insertion sort on the grouped rows
and auto-increment primary keys as fresh-id counters. Numeric columns are
rationals, timestamps are integers (ISO-string comparison in the source is
order-isomorphic to comparing the instants).
-/

namespace HotIssue

/-- A persisted tag row (`schema.tags`). -/
structure Tag where
  id : Nat
  name : String
  description : String
  isAiGenerated : Bool
  deriving DecidableEq, Repr

/-- A persisted ticket-tag association row (`schema.ticketsTags`). -/
structure TicketTagLink where
  id : Nat
  ticketId : String
  tagId : Nat
  confidence : ℚ
  isAiGenerated : Bool
  createdAt : Int
  deriving DecidableEq, Repr

/-- The relational store: the two tables touched by the analyzer plus the
auto-increment counters for their primary keys. -/
structure DBState where
  tags : List Tag
  ticketsTags : List TicketTagLink
  nextTagId : Nat
  nextLinkId : Nat
  deriving DecidableEq, Repr

/-- Row shape produced by `getExistingTags` (interface `ExistingTag`). -/
structure ExistingTag where
  name : String
  description : String
  usageCount : Nat
  deriving DecidableEq, Repr

/-- Shape of the structured completion result (interface `AIAnalysisResult`,
also the decoded form of replies conforming to `hotIssueAnalysisSchema`).
`reasoning` is nullable/optional, collapsed to `Option`. -/
structure AIAnalysisResult where
  name : String
  description : String
  confidence : ℚ
  reasoning : Option String
  deriving DecidableEq, Repr

/-- Interface `TimeRange`. The source field `end` is a Lean keyword, so it
is called `stop` here. -/
structure TimeRange where
  start : Int
  stop : Int
  deriving DecidableEq, Repr

namespace CONFIG

def MAX_EXISTING_TAGS : Nat := 50

def MAX_DESCRIPTION_LENGTH : Nat := 24

def MAX_REASONING_LENGTH : Nat := 50

def AI_TEMPERATURE : ℚ := mkRat 3 10

def TAG_SIMILARITY_THRESHOLD : ℚ := mkRat 7 10

def DEFAULT_CONFIDENCE : ℚ := mkRat 1 2

end CONFIG

/-- The zod output schema `hotIssueAnalysisSchema`: `name` any string,
`description` at most `MAX_DESCRIPTION_LENGTH` characters, `confidence` in
`[0,1]`, `reasoning` nullable/optional. The schema object is handed to the
external structured-output wrapper; the code after the call re-validates
the reply instead of trusting that the constraints were enforced. -/
def hotIssueAnalysisSchema (r : AIAnalysisResult) : Prop :=
  r.description.length ≤ CONFIG.MAX_DESCRIPTION_LENGTH ∧
    0 ≤ r.confidence ∧ r.confidence ≤ 1

instance (r : AIAnalysisResult) : Decidable (hotIssueAnalysisSchema r) := by
  unfold hotIssueAnalysisSchema; infer_instance

/-- Number of `ticketsTags` rows referencing a tag
(`count(schema.ticketsTags.id)` grouped by tag under the left join). -/
def usageCount (links : List TicketTagLink) (tagId : Nat) : Nat :=
  (links.filter (fun l => l.tagId == tagId)).length

/-- The projected row of the `getExistingTags` select. -/
def toExistingTag (db : DBState) (t : Tag) : ExistingTag :=
  { name := t.name, description := t.description,
    usageCount := usageCount db.ticketsTags t.id }

/-- `ORDER BY count DESC` comparison for `getExistingTags` rows. -/
def byUsageDesc (a b : ExistingTag) : Prop :=
  b.usageCount ≤ a.usageCount

instance : DecidableRel byUsageDesc :=
  fun a b => Nat.decLe b.usageCount a.usageCount

instance : IsTotal ExistingTag byUsageDesc :=
  ⟨fun a b => Nat.le_total b.usageCount a.usageCount⟩

instance : IsTrans ExistingTag byUsageDesc :=
  ⟨fun _ _ _ h1 h2 => Nat.le_trans h2 h1⟩

/-- `getExistingTags`: tags grouped with their usage counts, ordered by
descending usage count (ties in table order, which SQL leaves open and the
stable sort resolves the same way), limited to `MAX_EXISTING_TAGS`. -/
def getExistingTags (db : DBState) : List ExistingTag :=
  (List.insertionSort byUsageDesc (db.tags.map (toExistingTag db))).take
    CONFIG.MAX_EXISTING_TAGS

/-- `findOrCreateTag`: select the first tag with the exact name; if present
return its id, otherwise insert a new AI-generated tag and return the fresh
id. -/
def findOrCreateTag (db : DBState) (name description : String) :
    DBState × Nat :=
  match db.tags.find? (fun t => t.name == name) with
  | some t => (db, t.id)
  | none =>
      ({ db with
          tags := db.tags ++
            [{ id := db.nextTagId, name := name, description := description,
               isAiGenerated := true }],
          nextTagId := db.nextTagId + 1 },
        db.nextTagId)

/-- `isTicketTagLinked`: does a row with this `(ticketId, tagId)` pair
exist? -/
def isTicketTagLinked (db : DBState) (ticketId : String) (tagId : Nat) :
    Bool :=
  db.ticketsTags.any (fun l => l.ticketId == ticketId && l.tagId == tagId)

/-- `linkTicketToTag`: insert an AI-generated link row; `createdAt` is the
database default, passed in as `now`. -/
def linkTicketToTag (db : DBState) (ticketId : String) (tagId : Nat)
    (confidence : ℚ) (now : Int) : DBState :=
  { db with
      ticketsTags := db.ticketsTags ++
        [{ id := db.nextLinkId, ticketId := ticketId, tagId := tagId,
           confidence := confidence, isAiGenerated := true,
           createdAt := now }],
      nextLinkId := db.nextLinkId + 1 }

/-- Modelled from the spec: the rich-text ticket document (`JSONContentZod`
and the extractors in `kb/tools.ts` are outside this repository slice). Per
spec §4.1 the Content Extractor yields the plain text and the ordered image
URL list, so the document is modelled as exactly that pair. -/
structure TicketDoc where
  text : String
  imageUrls : List String
  deriving DecidableEq, Repr

/-- Modelled from the spec: text extraction preserving textual content. -/
def extractTextWithoutImages (doc : TicketDoc) : String := doc.text

/-- Modelled from the spec: image references in document order. -/
def extractImageUrls (doc : TicketDoc) : List String := doc.imageUrls

/-- A multimodal content block (`MMItem`). -/
inductive MMItem where
  | text (text : String)
  | image_url (url : String)
  deriving DecidableEq, Repr

/-- `buildUserContent`: one text block built from the title and extracted
description text, then the extracted image URLs capped at 6, in order. -/
def buildUserContent (title : String) (description : TicketDoc) :
    List MMItem :=
  let prompt := "标题: " ++ title ++ "\n描述: " ++
    extractTextWithoutImages description
  [MMItem.text prompt] ++
    ((extractImageUrls description).take 6).map (fun url =>
      MMItem.image_url url)

/-- `Math.max` on two (non-NaN) numbers. -/
def mathMax (a b : ℚ) : ℚ := if a ≤ b then b else a

/-- `Math.min` on two (non-NaN) numbers. -/
def mathMin (a b : ℚ) : ℚ := if a ≤ b then a else b

/-- The re-validation applied to the reply confidence
(`Math.min(Math.max(result.confidence || CONFIG.DEFAULT_CONFIDENCE, 0), 1)`);
a falsy (zero) confidence is replaced by the default before clamping. -/
def validateConfidence (c : ℚ) : ℚ :=
  mathMin (mathMax (if c = 0 then CONFIG.DEFAULT_CONFIDENCE else c) 0) 1

/-- `analyzeWithAI`: builds the prompts and invokes the completion service,
then normalizes the reply. The network call is external, so the structured
reply is an explicit argument and the embedded content is the normalization
of lines 259-264: falsy (empty) `name`/`description` fall back to fixed
strings, the confidence is defaulted-then-clamped, `reasoning` passes
through. -/
def analyzeWithAI (title : String) (description : TicketDoc)
    (existingTags : List ExistingTag) (serviceReply : AIAnalysisResult) :
    AIAnalysisResult :=
  { name := if serviceReply.name == "" then "其他问题" else serviceReply.name,
    description :=
      if serviceReply.description == "" then "未明确分类的问题"
      else serviceReply.description,
    confidence := validateConfidence serviceReply.confidence,
    reasoning := serviceReply.reasoning }

/-- Modelled from the spec: the process configuration (`OPENAI_CONFIG` in
`kb/config.ts` is outside this repository slice); the credential and model
identifier may each be absent. -/
structure OpenAIConfig where
  apiKey : Option String
  analysisModel : Option String
  deriving DecidableEq, Repr

/-- JS truthiness of a `string | undefined` configuration value. -/
def truthy : Option String → Bool
  | none => false
  | some s => !(s == "")

/-- An observable side effect of the orchestrator, for ordering claims. -/
inductive Effect where
  | storageRead
  | storageWrite
  | networkCall
  deriving DecidableEq, Repr

/-- Outcome of one `analyzeAndSaveHotIssue` invocation: the resulting
store, the thrown-or-returned outcome, the resolved tag id (instrumentation
for the statements), and the emitted effect trace in program order. -/
structure RunResult where
  db : DBState
  outcome : Except String Unit
  tagId : Option Nat
  effects : List Effect

/-- The orchestrator body after the configuration guards: read existing
tags, run the analysis, resolve the tag, then link unless already linked.
Effects are listed in program order (the tag select, conditional tag
insert, link select, conditional link insert). -/
def runPipeline (db : DBState) (ticketId title : String)
    (description : TicketDoc) (serviceReply : AIAnalysisResult)
    (now : Int) : RunResult :=
  let existingTags := getExistingTags db
  let analysis := analyzeWithAI title description existingTags serviceReply
  let fc := findOrCreateTag db analysis.name analysis.description
  let tagWasFound := (db.tags.find? (fun t => t.name == analysis.name)).isSome
  let isLinked := isTicketTagLinked fc.1 ticketId fc.2
  let db2 :=
    if isLinked then fc.1
    else linkTicketToTag fc.1 ticketId fc.2 analysis.confidence now
  { db := db2, outcome := Except.ok (), tagId := some fc.2,
    effects := [Effect.storageRead, Effect.networkCall, Effect.storageRead]
      ++ (if tagWasFound then [] else [Effect.storageWrite])
      ++ [Effect.storageRead]
      ++ (if isLinked then [] else [Effect.storageWrite]) }

/-- `analyzeAndSaveHotIssue`: fail fast when the credential or the model
identifier is absent (JS-falsy), otherwise run the pipeline. -/
def analyzeAndSaveHotIssue (cfg : OpenAIConfig) (db : DBState)
    (ticketId title : String) (description : TicketDoc)
    (serviceReply : AIAnalysisResult) (now : Int) : RunResult :=
  if !(truthy cfg.apiKey) then
    { db := db, outcome := Except.error "OPENAI_API_KEY 未配置",
      tagId := none, effects := [] }
  else if !(truthy cfg.analysisModel) then
    { db := db, outcome := Except.error "ANALYSIS_MODEL 未配置",
      tagId := none, effects := [] }
  else runPipeline db ticketId title description serviceReply now

/-- Row shape of the `getHotIssuesStats` select. -/
structure TagStatsRow where
  tag : String
  tagDescription : String
  count : Nat
  avgConfidence : ℚ
  deriving DecidableEq, Repr

/-- The links of one tag with `createdAt` inside the inclusive range
(the WHERE clause of `getHotIssuesStats` restricted to one group). -/
def linksInRange (links : List TicketTagLink) (tr : TimeRange)
    (tagId : Nat) : List TicketTagLink :=
  links.filter (fun l =>
    l.tagId == tagId && decide (tr.start ≤ l.createdAt) &&
      decide (l.createdAt ≤ tr.stop))

/-- The grouped row for one tag: name, description, link count and the
`avg(confidence)` aggregate over the group. -/
def statsRowOf (db : DBState) (tr : TimeRange) (t : Tag) : TagStatsRow :=
  let ls := linksInRange db.ticketsTags tr t.id
  { tag := t.name, tagDescription := t.description, count := ls.length,
    avgConfidence := (ls.map (fun l => l.confidence)).sum / (ls.length : ℚ) }

/-- `ORDER BY count DESC` comparison for stats rows. -/
def byCountDesc (a b : TagStatsRow) : Prop :=
  b.count ≤ a.count

instance : DecidableRel byCountDesc :=
  fun a b => Nat.decLe b.count a.count

instance : IsTotal TagStatsRow byCountDesc :=
  ⟨fun a b => Nat.le_total b.count a.count⟩

instance : IsTrans TagStatsRow byCountDesc :=
  ⟨fun _ _ _ h1 h2 => Nat.le_trans h2 h1⟩

/-- `getHotIssuesStats`: the inner join keeps exactly the tags with at
least one link in range; each group yields one row, ordered by descending
count. -/
def getHotIssuesStats (db : DBState) (tr : TimeRange) : List TagStatsRow :=
  List.insertionSort byCountDesc
    (db.tags.filterMap (fun t =>
      if (linksInRange db.ticketsTags tr t.id).isEmpty then none
      else some (statsRowOf db tr t)))

/-- Rows matching a `(ticketId, tagId)` pair, for counting the links of a
pair. -/
def linksFor (links : List TicketTagLink) (ticketId : String)
    (tagId : Nat) : List TicketTagLink :=
  links.filter (fun l => l.ticketId == ticketId && l.tagId == tagId)

/-! ## Supporting lemmas -/

theorem validateConfidence_bounds (c : ℚ) :
    0 ≤ validateConfidence c ∧ validateConfidence c ≤ 1 := by
  have hdc : (0 : ℚ) ≤ CONFIG.DEFAULT_CONFIDENCE ∧
      CONFIG.DEFAULT_CONFIDENCE ≤ 1 := by
    constructor <;> decide
  unfold validateConfidence mathMin mathMax
  split_ifs <;> constructor <;> linarith [hdc.1, hdc.2]

theorem validateConfidence_of_neg {c : ℚ} (h : c < 0) :
    validateConfidence c = 0 := by
  have hne : c ≠ 0 := ne_of_lt h
  unfold validateConfidence mathMin mathMax
  rw [if_neg hne]
  rw [if_pos h.le, if_pos]
  exact zero_le_one

theorem validateConfidence_of_gt_one {c : ℚ} (h : 1 < c) :
    validateConfidence c = 1 := by
  have hne : c ≠ 0 := by linarith
  have hnle : ¬c ≤ 0 := by linarith
  have hnle1 : ¬c ≤ 1 := by linarith
  unfold validateConfidence mathMin mathMax
  rw [if_neg hne, if_neg hnle, if_neg hnle1]

theorem validateConfidence_of_pos_le_one {c : ℚ} (h0 : 0 < c)
    (h1 : c ≤ 1) : validateConfidence c = c := by
  have hne : c ≠ 0 := ne_of_gt h0
  have hnle : ¬c ≤ 0 := not_le.mpr h0
  unfold validateConfidence mathMin mathMax
  rw [if_neg hne, if_neg hnle, if_pos h1]

theorem validateConfidence_zero :
    validateConfidence 0 = CONFIG.DEFAULT_CONFIDENCE := by decide

theorem analyzeWithAI_confidence (title : String) (doc : TicketDoc)
    (tags : List ExistingTag) (r : AIAnalysisResult) :
    (analyzeWithAI title doc tags r).confidence =
      validateConfidence r.confidence := rfl

theorem findOrCreateTag_fst_ticketsTags (db : DBState) (n d : String) :
    (findOrCreateTag db n d).1.ticketsTags = db.ticketsTags := by
  unfold findOrCreateTag
  split <;> rfl

/-- Every link present after a run was either already present or carries
the validated reply confidence. -/
theorem analyzeAndSaveHotIssue_links_subset (cfg : OpenAIConfig)
    (db : DBState) (tid title : String) (doc : TicketDoc)
    (r : AIAnalysisResult) (now : Int) :
    ∀ l ∈ (analyzeAndSaveHotIssue cfg db tid title doc r now).db.ticketsTags,
      l ∈ db.ticketsTags ∨ l.confidence = validateConfidence r.confidence := by
  intro l hl
  unfold analyzeAndSaveHotIssue at hl
  split at hl
  · exact Or.inl hl
  · split at hl
    · exact Or.inl hl
    · unfold runPipeline at hl
      dsimp only at hl
      split at hl
      · rw [findOrCreateTag_fst_ticketsTags] at hl
        exact Or.inl hl
      · simp only [linkTicketToTag, findOrCreateTag_fst_ticketsTags,
          List.mem_append, List.mem_singleton] at hl
        rcases hl with hl | hl
        · exact Or.inl hl
        · subst hl
          exact Or.inr rfl

/-! ## Claim theorems -/

/-- C4: if the completion-service credential or the model identifier is
absent from configuration, `analyzeAndSaveHotIssue` fails with a
configuration error, performs no storage or network effect, resolves no
tag, and leaves the store unchanged. -/
theorem configError_fails_before_effects (cfg : OpenAIConfig)
    (db : DBState) (ticketId title : String) (description : TicketDoc)
    (serviceReply : AIAnalysisResult) (now : Int)
    (h : truthy cfg.apiKey = false ∨ truthy cfg.analysisModel = false) :
    (analyzeAndSaveHotIssue cfg db ticketId title description serviceReply
        now).db = db ∧
      (∃ msg, (analyzeAndSaveHotIssue cfg db ticketId title description
        serviceReply now).outcome = Except.error msg) ∧
      (analyzeAndSaveHotIssue cfg db ticketId title description serviceReply
        now).effects = [] ∧
      (analyzeAndSaveHotIssue cfg db ticketId title description serviceReply
        now).tagId = none := by
  rcases h with h | h
  · unfold analyzeAndSaveHotIssue
    rw [h]
    exact ⟨rfl, ⟨_, rfl⟩, rfl, rfl⟩
  · unfold analyzeAndSaveHotIssue
    rw [h]
    cases hk : truthy cfg.apiKey
    · exact ⟨rfl, ⟨_, rfl⟩, rfl, rfl⟩
    · exact ⟨rfl, ⟨_, rfl⟩, rfl, rfl⟩

/-- C4 witness: with the credential absent, the run on an empty store is
an error with an empty effect trace. -/
theorem configError_fails_before_effects_witness :
    (analyzeAndSaveHotIssue ⟨none, some "m"⟩ ⟨[], [], 1, 1⟩ "t1" "title"
        ⟨"text", []⟩ ⟨"n", "d", 0, none⟩ 0).effects = [] :=
  (configError_fails_before_effects ⟨none, some "m"⟩ ⟨[], [], 1, 1⟩ "t1"
    "title" ⟨"text", []⟩ ⟨"n", "d", 0, none⟩ 0 (Or.inl rfl)).2.2.1

/-- C6: the user message is exactly one text block followed by
`min n 6` image blocks in document order; with no images it is the single
text block, and with 9 images exactly the first 6 appear. -/
theorem buildUserContent_structure : ∀ (title : String) (doc : TicketDoc),
    buildUserContent title doc =
      MMItem.text ("标题: " ++ title ++ "\n描述: " ++
          extractTextWithoutImages doc) ::
        ((extractImageUrls doc).take 6).map MMItem.image_url
    ∧ (buildUserContent title doc).length =
        1 + min 6 (extractImageUrls doc).length
    ∧ (extractImageUrls doc = [] →
        buildUserContent title doc =
          [MMItem.text ("标题: " ++ title ++ "\n描述: " ++
            extractTextWithoutImages doc)])
    ∧ buildUserContent title ⟨doc.text,
          ["u1", "u2", "u3", "u4", "u5", "u6", "u7", "u8", "u9"]⟩ =
        [MMItem.text ("标题: " ++ title ++ "\n描述: " ++ doc.text),
          MMItem.image_url "u1", MMItem.image_url "u2",
          MMItem.image_url "u3", MMItem.image_url "u4",
          MMItem.image_url "u5", MMItem.image_url "u6"] := by
  intro title doc
  refine ⟨rfl, ?_, ?_, rfl⟩
  · simp [buildUserContent, List.length_take]
    omega
  · intro h
    simp only [extractImageUrls] at h
    simp [buildUserContent, extractImageUrls, h]

/-- C6 witness: a document with no image references yields exactly the one
text block. -/
theorem buildUserContent_structure_witness :
    buildUserContent "hello" ⟨"world", []⟩ =
      [MMItem.text ("标题: " ++ "hello" ++ "\n描述: " ++ "world")] :=
  (buildUserContent_structure "hello" ⟨"world", []⟩).2.2.1 rfl

/-- C9: an empty (JS-falsy, i.e. missing) `name` falls back to the fixed
label, an empty `description` falls back to the fixed phrase, and
`reasoning` passes through unchanged (possibly null). The source fallback
literals are the Chinese strings glossed by the spec as "uncategorized"
and "unclassified issue". -/
theorem analyzeWithAI_fallbacks :
    (∀ (title : String) (doc : TicketDoc) (tags : List ExistingTag)
        (r : AIAnalysisResult), r.name = "" →
        (analyzeWithAI title doc tags r).name = "其他问题")
    ∧ (∀ (title : String) (doc : TicketDoc) (tags : List ExistingTag)
        (r : AIAnalysisResult), r.description = "" →
        (analyzeWithAI title doc tags r).description = "未明确分类的问题")
    ∧ (∀ (title : String) (doc : TicketDoc) (tags : List ExistingTag)
        (r : AIAnalysisResult),
        (analyzeWithAI title doc tags r).reasoning = r.reasoning)
    ∧ (∀ (title : String) (doc : TicketDoc) (tags : List ExistingTag)
        (r : AIAnalysisResult), r.name ≠ "" →
        (analyzeWithAI title doc tags r).name = r.name)
    ∧ (∀ (title : String) (doc : TicketDoc) (tags : List ExistingTag)
        (r : AIAnalysisResult), r.description ≠ "" →
        (analyzeWithAI title doc tags r).description = r.description) := by
  refine ⟨?_, ?_, ?_, ?_, ?_⟩ <;> intro title doc tags r
  · intro h
    simp [analyzeWithAI, h]
  · intro h
    simp [analyzeWithAI, h]
  · rfl
  · intro h
    simp [analyzeWithAI, h]
  · intro h
    simp [analyzeWithAI, h]

/-- C9 witness: an empty name and description fall back, reasoning passes
through. -/
theorem analyzeWithAI_fallbacks_witness :
    (analyzeWithAI "t" ⟨"d", []⟩ [] ⟨"", "", mkRat 9 10, some "why"⟩).name
        = "其他问题"
    ∧ (analyzeWithAI "t" ⟨"d", []⟩ [] ⟨"", "", mkRat 9 10,
        some "why"⟩).description = "未明确分类的问题" :=
  ⟨analyzeWithAI_fallbacks.1 "t" ⟨"d", []⟩ [] ⟨"", "", mkRat 9 10,
      some "why"⟩ rfl,
    analyzeWithAI_fallbacks.2.1 "t" ⟨"d", []⟩ [] ⟨"", "", mkRat 9 10,
      some "why"⟩ rfl⟩

/-- C1 counterexample: the raw confidence 0 lies in `[0,1]`, yet the
confidence stored by the link-insertion step is 1/2, not 0 — so in-range
raw values do not all pass through unchanged. -/
theorem confidence_zero_not_passed_through :
    ((analyzeAndSaveHotIssue ⟨some "key1", some "model1"⟩ ⟨[], [], 1, 1⟩
        "tk1" "title" ⟨"body", []⟩ ⟨"bug", "desc", 0, none⟩
        0).db.ticketsTags.map (fun l => l.confidence)) = [mkRat 1 2]
    ∧ mkRat 1 2 ≠ (0 : ℚ) := by
  constructor <;> decide

/-- C1 (amended): every confidence passed to link insertion by
`analyzeAndSaveHotIssue` lies in `[0,1]`: raw values below 0 map to 0,
above 1 map to 1, in-range nonzero values pass through unchanged, and
exactly 0 maps to the default 1/2; the test inputs -3/10, 17/10 and
42/100 map to 0, 1 and 42/100. -/
theorem confidence_clamped :
    (∀ c : ℚ, 0 ≤ validateConfidence c ∧ validateConfidence c ≤ 1)
    ∧ (∀ c : ℚ, c < 0 → validateConfidence c = 0)
    ∧ (∀ c : ℚ, 1 < c → validateConfidence c = 1)
    ∧ (∀ c : ℚ, 0 < c → c ≤ 1 → validateConfidence c = c)
    ∧ validateConfidence 0 = CONFIG.DEFAULT_CONFIDENCE
    ∧ validateConfidence (mkRat (-3) 10) = 0
    ∧ validateConfidence (mkRat 17 10) = 1
    ∧ validateConfidence (mkRat 42 100) = mkRat 42 100
    ∧ (∀ (title : String) (doc : TicketDoc) (tags : List ExistingTag)
        (r : AIAnalysisResult),
        (analyzeWithAI title doc tags r).confidence =
          validateConfidence r.confidence)
    ∧ (∀ (cfg : OpenAIConfig) (db : DBState) (tid title : String)
        (doc : TicketDoc) (r : AIAnalysisResult) (now : Int),
        ∀ l ∈ (analyzeAndSaveHotIssue cfg db tid title doc r
            now).db.ticketsTags,
          l ∈ db.ticketsTags ∨
            l.confidence = validateConfidence r.confidence) :=
  ⟨validateConfidence_bounds,
    fun _ h => validateConfidence_of_neg h,
    fun _ h => validateConfidence_of_gt_one h,
    fun _ h0 h1 => validateConfidence_of_pos_le_one h0 h1,
    validateConfidence_zero,
    by decide, by decide, by decide,
    analyzeWithAI_confidence,
    analyzeAndSaveHotIssue_links_subset⟩

/-- C1 witness: the clamping facts instantiated at -7/10, 6/5 and
3/10. -/
theorem confidence_clamped_witness :
    validateConfidence (mkRat (-7) 10) = 0
    ∧ validateConfidence (mkRat 6 5) = 1
    ∧ validateConfidence (mkRat 3 10) = mkRat 3 10 :=
  ⟨confidence_clamped.2.1 (mkRat (-7) 10) (by decide),
    confidence_clamped.2.2.1 (mkRat 6 5) (by decide),
    confidence_clamped.2.2.2.1 (mkRat 3 10) (by decide) (by decide)⟩

/-- C10 counterexample: a link with confidence exactly 0 IS persisted by
`analyzeAndSaveHotIssue` when the service reply carries a negative raw
confidence (here -3/10, clamped to 0), refuting the final sentence of the
claim. -/
theorem zero_confidence_persisted_counterexample :
    ((analyzeAndSaveHotIssue ⟨some "key2", some "model2"⟩ ⟨[], [], 1, 1⟩
        "tk2" "title" ⟨"body", []⟩ ⟨"net", "desc", mkRat (-3) 10, none⟩
        0).db.ticketsTags.map (fun l => l.confidence)) = [0] := by
  decide

/-- C10 (amended): a raw confidence of exactly 0 (JS-falsy) is replaced
with the default 0.5 before clamping, and an empty-string name or
description triggers the respective fallback even though the field is
present; hence a reply confidence of exactly 0 is never persisted as 0 —
every link such a run adds carries 1/2. A persisted confidence of 0
remains possible, from negative raw values that clamp to 0. -/
theorem falsy_fields_defaulted :
    (∀ (title : String) (doc : TicketDoc) (tags : List ExistingTag)
        (r : AIAnalysisResult), r.confidence = 0 →
        (analyzeWithAI title doc tags r).confidence =
          CONFIG.DEFAULT_CONFIDENCE)
    ∧ (∀ (title : String) (doc : TicketDoc) (tags : List ExistingTag)
        (r : AIAnalysisResult), r.name = "" →
        (analyzeWithAI title doc tags r).name = "其他问题")
    ∧ (∀ (title : String) (doc : TicketDoc) (tags : List ExistingTag)
        (r : AIAnalysisResult), r.description = "" →
        (analyzeWithAI title doc tags r).description = "未明确分类的问题")
    ∧ (∀ (cfg : OpenAIConfig) (db : DBState) (tid title : String)
        (doc : TicketDoc) (r : AIAnalysisResult) (now : Int),
        r.confidence = 0 →
        ∀ l ∈ (analyzeAndSaveHotIssue cfg db tid title doc r
            now).db.ticketsTags,
          l ∈ db.ticketsTags ∨
            l.confidence = CONFIG.DEFAULT_CONFIDENCE)
    ∧ (∀ c : ℚ, c < 0 → validateConfidence c = 0) := by
  refine ⟨?_, ?_, ?_, ?_, fun _ h => validateConfidence_of_neg h⟩
  · intro title doc tags r h
    rw [analyzeWithAI_confidence, h, validateConfidence_zero]
  · intro title doc tags r h
    simp [analyzeWithAI, h]
  · intro title doc tags r h
    simp [analyzeWithAI, h]
  · intro cfg db tid title doc r now h l hl
    rcases analyzeAndSaveHotIssue_links_subset cfg db tid title doc r now
      l hl with hmem | hconf
    · exact Or.inl hmem
    · rw [h, validateConfidence_zero] at hconf
      exact Or.inr hconf

/-- C10 witness: a reply with confidence exactly 0 is normalized to the
default 1/2. -/
theorem falsy_fields_defaulted_witness :
    (analyzeWithAI "t" ⟨"d", []⟩ [] ⟨"a", "b", 0, none⟩).confidence =
      CONFIG.DEFAULT_CONFIDENCE :=
  falsy_fields_defaulted.1 "t" ⟨"d", []⟩ [] ⟨"a", "b", 0, none⟩ rfl

theorem findOrCreateTag_found {db : DBState} {n d : String} {t : Tag}
    (h : db.tags.find? (fun x => x.name == n) = some t) :
    findOrCreateTag db n d = (db, t.id) := by
  unfold findOrCreateTag
  rw [h]

theorem findOrCreateTag_created {db : DBState} {n d : String}
    (h : db.tags.find? (fun x => x.name == n) = none) :
    findOrCreateTag db n d =
      ({ db with
          tags := db.tags ++
            [{ id := db.nextTagId, name := n, description := d,
               isAiGenerated := true }],
          nextTagId := db.nextTagId + 1 }, db.nextTagId) := by
  unfold findOrCreateTag
  rw [h]

theorem find_new_tag {db : DBState} {n : String} (d : String)
    (h : db.tags.find? (fun x => x.name == n) = none) :
    (db.tags ++
        [({ id := db.nextTagId, name := n, description := d,
            isAiGenerated := true } : Tag)]).find?
      (fun x => x.name == n) =
      some { id := db.nextTagId, name := n, description := d,
             isAiGenerated := true } := by
  rw [List.find?_append, h]
  simp [List.find?]

/-- A second `findOrCreateTag` call with the same name returns the same
id and leaves the store exactly as the first call left it. -/
theorem findOrCreateTag_rerun (db : DBState) (n d1 d2 : String) :
    findOrCreateTag (findOrCreateTag db n d1).1 n d2 =
      ((findOrCreateTag db n d1).1, (findOrCreateTag db n d1).2) := by
  cases h : db.tags.find? (fun x => x.name == n) with
  | some t =>
      rw [findOrCreateTag_found h]
      exact findOrCreateTag_found h
  | none =>
      have h2 := find_new_tag d1 h
      rw [findOrCreateTag_created h]
      dsimp only
      unfold findOrCreateTag
      rw [h2]

/-- C3: an existing name resolves to the existing tag id with the store
(including the stored description) unchanged; an absent name creates an
AI-generated tag with the given name and description and returns the
fresh id; two calls with the same name and different descriptions return
the same id, the second call changes nothing, and the stored description
is the one from the first call. -/
theorem findOrCreateTag_first_write_wins :
    (∀ (db : DBState) (n d : String) (t : Tag),
        db.tags.find? (fun x => x.name == n) = some t →
        findOrCreateTag db n d = (db, t.id))
    ∧ (∀ (db : DBState) (n d : String),
        db.tags.find? (fun x => x.name == n) = none →
        (findOrCreateTag db n d).1.tags =
          db.tags ++
            [{ id := db.nextTagId, name := n, description := d,
               isAiGenerated := true }] ∧
        (findOrCreateTag db n d).2 = db.nextTagId)
    ∧ (∀ (db : DBState) (n d1 d2 : String),
        (findOrCreateTag (findOrCreateTag db n d1).1 n d2).2 =
          (findOrCreateTag db n d1).2 ∧
        (findOrCreateTag (findOrCreateTag db n d1).1 n d2).1 =
          (findOrCreateTag db n d1).1)
    ∧ (∀ (db : DBState) (n d1 d2 : String),
        db.tags.find? (fun x => x.name == n) = none →
        ∃ t ∈ (findOrCreateTag (findOrCreateTag db n d1).1 n d2).1.tags,
          t.id = (findOrCreateTag db n d1).2 ∧ t.name = n ∧
            t.description = d1 ∧ t.isAiGenerated = true) := by
  refine ⟨?_, ?_, ?_, ?_⟩
  · intro db n d t h
    exact findOrCreateTag_found h
  · intro db n d h
    rw [findOrCreateTag_created h]
    exact ⟨rfl, rfl⟩
  · intro db n d1 d2
    rw [findOrCreateTag_rerun db n d1 d2]
    exact ⟨rfl, rfl⟩
  · intro db n d1 d2 h
    rw [findOrCreateTag_rerun db n d1 d2, findOrCreateTag_created h]
    refine ⟨{ id := db.nextTagId
              name := n
              description := d1
              isAiGenerated := true }, ?_, rfl, rfl, rfl, rfl⟩
    simp

/-- C3 witness: creating a tag in an empty store returns the fresh id 5,
and a second call with a different description returns the same id while
keeping the first description. -/
theorem findOrCreateTag_first_write_wins_witness :
    (findOrCreateTag ⟨[], [], 5, 1⟩ "部署问题" "第一个描述").2 = 5
    ∧ ∃ t ∈ (findOrCreateTag
          (findOrCreateTag ⟨[], [], 5, 1⟩ "部署问题" "第一个描述").1
          "部署问题" "第二个描述").1.tags,
        t.id = (findOrCreateTag ⟨[], [], 5, 1⟩ "部署问题" "第一个描述").2 ∧
          t.name = "部署问题" ∧ t.description = "第一个描述" ∧
          t.isAiGenerated = true :=
  ⟨(findOrCreateTag_first_write_wins.2.1 ⟨[], [], 5, 1⟩ "部署问题"
      "第一个描述" rfl).2,
    findOrCreateTag_first_write_wins.2.2.2 ⟨[], [], 5, 1⟩ "部署问题"
      "第一个描述" "第二个描述" rfl⟩

/-- C8: `getExistingTags` returns the grouped vocabulary ordered by
non-increasing usage count and truncated to the cap of 50: it is the
50-prefix of a sorted permutation of the grouped rows, and when more than
50 tags exist exactly 50 rows are returned. -/
theorem getExistingTags_spec : ∀ db : DBState,
    (getExistingTags db).length =
      min CONFIG.MAX_EXISTING_TAGS db.tags.length
    ∧ (getExistingTags db).Pairwise
        (fun a b => b.usageCount ≤ a.usageCount)
    ∧ (∃ l : List ExistingTag,
        List.Perm l (db.tags.map (toExistingTag db)) ∧
        List.Pairwise byUsageDesc l ∧
        getExistingTags db = List.take CONFIG.MAX_EXISTING_TAGS l)
    ∧ (CONFIG.MAX_EXISTING_TAGS < db.tags.length →
        (getExistingTags db).length = CONFIG.MAX_EXISTING_TAGS) := by
  intro db
  have hperm := List.perm_insertionSort byUsageDesc
    (db.tags.map (toExistingTag db))
  have hsort := List.sorted_insertionSort byUsageDesc
    (db.tags.map (toExistingTag db))
  have hlen : (getExistingTags db).length =
      min CONFIG.MAX_EXISTING_TAGS db.tags.length := by
    simp [getExistingTags, List.length_take, hperm.length_eq]
  refine ⟨hlen, ?_, ⟨_, hperm, hsort, rfl⟩, ?_⟩
  · exact List.Pairwise.sublist (List.take_sublist _ _) hsort
  · intro h
    rw [hlen]
    omega

/-- Fifty-one tags, for exercising the cap. -/
def manyTagsDb : DBState :=
  { tags := (List.range 51).map (fun i =>
      { id := i, name := "t", description := "d", isAiGenerated := true }),
    ticketsTags := [], nextTagId := 51, nextLinkId := 1 }

/-- C8 witness: with 51 stored tags, exactly 50 rows come back. -/
theorem getExistingTags_spec_witness :
    (getExistingTags manyTagsDb).length = CONFIG.MAX_EXISTING_TAGS :=
  (getExistingTags_spec manyTagsDb).2.2.2 (by decide)

theorem analyzeAndSaveHotIssue_configOk {cfg : OpenAIConfig}
    (hk : truthy cfg.apiKey = true) (hm : truthy cfg.analysisModel = true)
    (db : DBState) (tid title : String) (doc : TicketDoc)
    (r : AIAnalysisResult) (now : Int) :
    analyzeAndSaveHotIssue cfg db tid title doc r now =
      runPipeline db tid title doc r now := by
  unfold analyzeAndSaveHotIssue
  rw [hk, hm]
  simp

theorem runPipeline_outcome (db : DBState) (tid title : String)
    (doc : TicketDoc) (r : AIAnalysisResult) (now : Int) :
    (runPipeline db tid title doc r now).outcome = Except.ok () := rfl

theorem runPipeline_tagId (db : DBState) (tid title : String)
    (doc : TicketDoc) (r : AIAnalysisResult) (now : Int) :
    (runPipeline db tid title doc r now).tagId =
      some (findOrCreateTag db
        (analyzeWithAI title doc (getExistingTags db) r).name
        (analyzeWithAI title doc (getExistingTags db) r).description).2 :=
  rfl

theorem runPipeline_db_tags (db : DBState) (tid title : String)
    (doc : TicketDoc) (r : AIAnalysisResult) (now : Int) :
    (runPipeline db tid title doc r now).db.tags =
      (findOrCreateTag db
        (analyzeWithAI title doc (getExistingTags db) r).name
        (analyzeWithAI title doc (getExistingTags db) r).description).1.tags
    := by
  unfold runPipeline
  dsimp only
  split <;> rfl

/-- C5: a reply description longer than the 24-character ceiling (hence
violating `hotIssueAnalysisSchema`) is neither truncated nor rejected by
the pipeline: the normalization passes it through verbatim and the
orchestrator still persists a tag carrying it unmodified. -/
theorem overlong_description_persisted :
    (∀ (title : String) (doc : TicketDoc) (tags : List ExistingTag)
        (r : AIAnalysisResult), r.description ≠ "" →
        (analyzeWithAI title doc tags r).description = r.description)
    ∧ (∀ (cfg : OpenAIConfig) (db : DBState) (tid title : String)
        (doc : TicketDoc) (r : AIAnalysisResult) (now : Int),
        truthy cfg.apiKey = true → truthy cfg.analysisModel = true →
        CONFIG.MAX_DESCRIPTION_LENGTH < r.description.length →
        r.name ≠ "" →
        db.tags.find? (fun x => x.name == r.name) = none →
        ¬hotIssueAnalysisSchema r ∧
          (analyzeAndSaveHotIssue cfg db tid title doc r now).outcome =
            Except.ok () ∧
          ∃ t ∈ (analyzeAndSaveHotIssue cfg db tid title doc r now).db.tags,
            t.name = r.name ∧ t.description = r.description ∧
              t.isAiGenerated = true) := by
  constructor
  · intro title doc tags r h
    simp [analyzeWithAI, h]
  · intro cfg db tid title doc r now hk hm hlen hname hfind
    have hdesc : r.description ≠ "" := by
      intro e
      rw [e] at hlen
      exact absurd hlen (by decide)
    have haname :
        (analyzeWithAI title doc (getExistingTags db) r).name = r.name := by
      simp [analyzeWithAI, hname]
    have hadesc :
        (analyzeWithAI title doc (getExistingTags db) r).description =
          r.description := by
      simp [analyzeWithAI, hdesc]
    refine ⟨fun hs => absurd hs.1 (not_le.mpr hlen), ?_, ?_⟩
    · rw [analyzeAndSaveHotIssue_configOk hk hm]
      exact runPipeline_outcome db tid title doc r now
    · rw [analyzeAndSaveHotIssue_configOk hk hm, runPipeline_db_tags]
      rw [haname, hadesc]
      rw [findOrCreateTag_created hfind]
      refine ⟨{ id := db.nextTagId
                name := r.name
                description := r.description
                isAiGenerated := true }, ?_, rfl, rfl, rfl⟩
      simp

/-- C5 witness: a 25-character description (one over the ceiling) makes it
into the stored tag verbatim. -/
theorem overlong_description_persisted_witness :
    ∃ t ∈ (analyzeAndSaveHotIssue ⟨some "key3", some "model3"⟩
        ⟨[], [], 1, 1⟩ "tk3" "title" ⟨"body", []⟩
        ⟨"部署问题", "aaaaaaaaaaaaaaaaaaaaaaaaa", mkRat 4 5, none⟩
        0).db.tags,
      t.name = "部署问题" ∧
        t.description = "aaaaaaaaaaaaaaaaaaaaaaaaa" ∧
        t.isAiGenerated = true :=
  ((overlong_description_persisted.2 ⟨some "key3", some "model3"⟩
      ⟨[], [], 1, 1⟩ "tk3" "title" ⟨"body", []⟩
      ⟨"部署问题", "aaaaaaaaaaaaaaaaaaaaaaaaa", mkRat 4 5, none⟩ 0
      rfl rfl (by decide) (by decide) rfl).2).2

theorem filterMap_if_isEmpty {α β : Type} (p : α → Bool) (g : α → β) :
    ∀ l : List α,
      (l.filterMap fun a => if p a then none else some (g a)) =
        (l.filter fun a => !(p a)).map g := by
  intro l
  induction l with
  | nil => rfl
  | cons a l ih =>
      cases h : p a <;>
        simp [List.filterMap_cons, List.filter_cons, h, ih]

/-- The spec's stats example: tag A with three in-range links of
confidences 3/5, 4/5 and 1, tag B with one in-range link of confidence
1/2. -/
def statsExampleDb : DBState :=
  { tags := [{ id := 1, name := "A", description := "da",
               isAiGenerated := true },
             { id := 2, name := "B", description := "db",
               isAiGenerated := true }],
    ticketsTags := [⟨1, "t1", 1, mkRat 3 5, true, 1⟩,
                    ⟨2, "t2", 1, mkRat 4 5, true, 2⟩,
                    ⟨3, "t3", 1, 1, true, 3⟩,
                    ⟨4, "t4", 2, mkRat 1 2, true, 4⟩],
    nextTagId := 3, nextLinkId := 5 }

/-- C7: `getHotIssuesStats` yields one row per tag having at least one
link with `createdAt` in the inclusive range — a permutation of the
grouped rows, each carrying the group's link count and arithmetic-mean
confidence — ordered by descending count; on the spec's example the rows
are (A, 3, 4/5) then (B, 1, 1/2). -/
theorem getHotIssuesStats_spec : ∀ (db : DBState) (tr : TimeRange),
    List.Perm (getHotIssuesStats db tr)
      ((db.tags.filter (fun t =>
          !(linksInRange db.ticketsTags tr t.id).isEmpty)).map
        (statsRowOf db tr))
    ∧ List.Pairwise (fun a b => b.count ≤ a.count)
        (getHotIssuesStats db tr)
    ∧ (∀ t ∈ db.tags, linksInRange db.ticketsTags tr t.id ≠ [] →
        statsRowOf db tr t ∈ getHotIssuesStats db tr)
    ∧ (∀ row ∈ getHotIssuesStats db tr,
        ∃ t ∈ db.tags, row = statsRowOf db tr t ∧
          linksInRange db.ticketsTags tr t.id ≠ [])
    ∧ getHotIssuesStats statsExampleDb ⟨0, 10⟩ =
        [{ tag := "A", tagDescription := "da", count := 3,
           avgConfidence := mkRat 4 5 },
         { tag := "B", tagDescription := "db", count := 1,
           avgConfidence := mkRat 1 2 }] := by
  intro db tr
  have hbody : (db.tags.filterMap fun t =>
      if (linksInRange db.ticketsTags tr t.id).isEmpty then none
      else some (statsRowOf db tr t)) =
      (db.tags.filter fun t =>
        !(linksInRange db.ticketsTags tr t.id).isEmpty).map
        (statsRowOf db tr) :=
    filterMap_if_isEmpty _ _ db.tags
  have hperm : List.Perm (getHotIssuesStats db tr)
      ((db.tags.filter (fun t =>
          !(linksInRange db.ticketsTags tr t.id).isEmpty)).map
        (statsRowOf db tr)) := by
    unfold getHotIssuesStats
    rw [hbody]
    exact List.perm_insertionSort byCountDesc _
  have hsort : List.Pairwise byCountDesc (getHotIssuesStats db tr) :=
    List.sorted_insertionSort byCountDesc _
  refine ⟨hperm, hsort, ?_, ?_, ?_⟩
  · intro t ht hne
    have hmem : statsRowOf db tr t ∈ (db.tags.filter (fun t =>
        !(linksInRange db.ticketsTags tr t.id).isEmpty)).map
        (statsRowOf db tr) :=
      List.mem_map_of_mem _ (List.mem_filter.mpr ⟨ht, by simp [hne]⟩)
    exact hperm.mem_iff.mpr hmem
  · intro row hrow
    rcases List.mem_map.mp (hperm.mem_iff.mp hrow) with ⟨t, htf, heq⟩
    rcases List.mem_filter.mp htf with ⟨ht, hp⟩
    exact ⟨t, ht, heq.symm, by simpa using hp⟩
  · simp [getHotIssuesStats, statsExampleDb, linksInRange, statsRowOf,
      List.insertionSort, List.orderedInsert, byCountDesc]
    norm_num [Rat.mkRat_eq_divInt, Rat.divInt_eq_div]

/-- C7 witness: on the example store, tag A's grouped row is among the
returned rows. -/
theorem getHotIssuesStats_spec_witness :
    statsRowOf statsExampleDb ⟨0, 10⟩
        { id := 1, name := "A", description := "da",
          isAiGenerated := true } ∈
      getHotIssuesStats statsExampleDb ⟨0, 10⟩ :=
  (getHotIssuesStats_spec statsExampleDb ⟨0, 10⟩).2.2.1
    { id := 1, name := "A", description := "da", isAiGenerated := true }
    (by simp [statsExampleDb]) (by decide)

theorem analyzeWithAI_tags_irrel (title : String) (doc : TicketDoc)
    (tags1 tags2 : List ExistingTag) (r : AIAnalysisResult) :
    analyzeWithAI title doc tags1 r = analyzeWithAI title doc tags2 r :=
  rfl

theorem isTicketTagLinked_true_of_mem {db : DBState} {tid : String}
    {tg : Nat} {l : TicketTagLink} (hl : l ∈ db.ticketsTags)
    (h1 : l.ticketId = tid) (h2 : l.tagId = tg) :
    isTicketTagLinked db tid tg = true := by
  unfold isTicketTagLinked
  rw [List.any_eq_true]
  exact ⟨l, hl, by simp [h1, h2]⟩

theorem linksFor_eq_nil_of_not_linked {db : DBState} {tid : String}
    {tg : Nat} (h : isTicketTagLinked db tid tg = false) :
    linksFor db.ticketsTags tid tg = [] := by
  unfold isTicketTagLinked at h
  unfold linksFor
  rw [List.filter_eq_nil_iff]
  exact List.any_eq_false.mp h

theorem linksFor_length_pos_of_linked {db : DBState} {tid : String}
    {tg : Nat} (h : isTicketTagLinked db tid tg = true) :
    0 < (linksFor db.ticketsTags tid tg).length := by
  unfold isTicketTagLinked at h
  rcases List.any_eq_true.mp h with ⟨l, hl, hp⟩
  exact List.length_pos_of_mem (List.mem_filter.mpr ⟨hl, hp⟩)

theorem runPipeline_db (db : DBState) (tid title : String)
    (doc : TicketDoc) (r : AIAnalysisResult) (now : Int) :
    (runPipeline db tid title doc r now).db =
      (if isTicketTagLinked
          (findOrCreateTag db
            (analyzeWithAI title doc (getExistingTags db) r).name
            (analyzeWithAI title doc (getExistingTags db) r).description).1
          tid
          (findOrCreateTag db
            (analyzeWithAI title doc (getExistingTags db) r).name
            (analyzeWithAI title doc (getExistingTags db) r).description).2
        then
          (findOrCreateTag db
            (analyzeWithAI title doc (getExistingTags db) r).name
            (analyzeWithAI title doc (getExistingTags db) r).description).1
        else
          linkTicketToTag
            (findOrCreateTag db
              (analyzeWithAI title doc (getExistingTags db) r).name
              (analyzeWithAI title doc (getExistingTags db) r).description).1
            tid
            (findOrCreateTag db
              (analyzeWithAI title doc (getExistingTags db) r).name
              (analyzeWithAI title doc (getExistingTags db) r).description).2
            (analyzeWithAI title doc (getExistingTags db) r).confidence
            now) := rfl

theorem runPipeline_effects (db : DBState) (tid title : String)
    (doc : TicketDoc) (r : AIAnalysisResult) (now : Int) :
    (runPipeline db tid title doc r now).effects =
      [Effect.storageRead, Effect.networkCall, Effect.storageRead]
        ++ (if (db.tags.find? (fun t => t.name ==
              (analyzeWithAI title doc (getExistingTags db) r).name)).isSome
            then [] else [Effect.storageWrite])
        ++ [Effect.storageRead]
        ++ (if isTicketTagLinked
              (findOrCreateTag db
                (analyzeWithAI title doc (getExistingTags db) r).name
                (analyzeWithAI title doc (getExistingTags db)
                  r).description).1
              tid
              (findOrCreateTag db
                (analyzeWithAI title doc (getExistingTags db) r).name
                (analyzeWithAI title doc (getExistingTags db)
                  r).description).2
            then [] else [Effect.storageWrite]) := rfl

/-- After a pipeline run, the first tag named like the analysis result is
present in the store and carries the resolved tag id. -/
theorem runPipeline_find_name (db : DBState) (tid title : String)
    (doc : TicketDoc) (r : AIAnalysisResult) (now : Int) :
    ∃ t : Tag,
      (runPipeline db tid title doc r now).db.tags.find?
          (fun x => x.name ==
            (analyzeWithAI title doc (getExistingTags db) r).name) =
        some t ∧
      (runPipeline db tid title doc r now).tagId = some t.id := by
  rw [runPipeline_db_tags, runPipeline_tagId]
  cases hfind : db.tags.find? (fun x => x.name ==
      (analyzeWithAI title doc (getExistingTags db) r).name) with
  | some t =>
      rw [findOrCreateTag_found hfind]
      exact ⟨t, hfind, rfl⟩
  | none =>
      rw [findOrCreateTag_created hfind]
      exact ⟨_,
        find_new_tag
          (analyzeWithAI title doc (getExistingTags db) r).description
          hfind, rfl⟩

/-- After a pipeline run, the ticket is linked to the resolved tag. -/
theorem runPipeline_linked (db : DBState) (tid title : String)
    (doc : TicketDoc) (r : AIAnalysisResult) (now : Int) :
    ∀ tg, (runPipeline db tid title doc r now).tagId = some tg →
      isTicketTagLinked (runPipeline db tid title doc r now).db tid tg =
        true := by
  intro tg htg
  rw [runPipeline_tagId] at htg
  injection htg with htg
  subst htg
  rw [runPipeline_db]
  cases hlink : isTicketTagLinked
      (findOrCreateTag db
        (analyzeWithAI title doc (getExistingTags db) r).name
        (analyzeWithAI title doc (getExistingTags db) r).description).1
      tid
      (findOrCreateTag db
        (analyzeWithAI title doc (getExistingTags db) r).name
        (analyzeWithAI title doc (getExistingTags db) r).description).2
  case true =>
      rw [if_pos rfl]
      exact hlink
  case false =>
      rw [if_neg (by decide)]
      apply isTicketTagLinked_true_of_mem (l :=
        { id := (findOrCreateTag db
            (analyzeWithAI title doc (getExistingTags db) r).name
            (analyzeWithAI title doc (getExistingTags db)
              r).description).1.nextLinkId
          ticketId := tid
          tagId := (findOrCreateTag db
            (analyzeWithAI title doc (getExistingTags db) r).name
            (analyzeWithAI title doc (getExistingTags db)
              r).description).2
          confidence :=
            (analyzeWithAI title doc (getExistingTags db) r).confidence
          isAiGenerated := true
          createdAt := now })
      · simp [linkTicketToTag]
      · rfl
      · rfl

/-- A second pipeline run with the same inputs resolves the same tag id,
changes nothing in the store, performs no insert, and — when the initial
store has at most one link per pair — leaves exactly one link row for the
resolved pair. -/
theorem runPipeline_rerun (db : DBState) (tid title : String)
    (doc : TicketDoc) (r : AIAnalysisResult) (now1 now2 : Int)
    (hcount : ∀ tg, (linksFor db.ticketsTags tid tg).length ≤ 1) :
    (runPipeline (runPipeline db tid title doc r now1).db tid title doc r
        now2).db = (runPipeline db tid title doc r now1).db
    ∧ (runPipeline (runPipeline db tid title doc r now1).db tid title doc
        r now2).tagId = (runPipeline db tid title doc r now1).tagId
    ∧ Effect.storageWrite ∉
        (runPipeline (runPipeline db tid title doc r now1).db tid title
          doc r now2).effects
    ∧ (∀ tg, (runPipeline db tid title doc r now1).tagId = some tg →
        (linksFor (runPipeline db tid title doc r now1).db.ticketsTags
          tid tg).length = 1) := by
  obtain ⟨t, hfind2, htid⟩ := runPipeline_find_name db tid title doc r now1
  have hfc2 : findOrCreateTag (runPipeline db tid title doc r now1).db
      (analyzeWithAI title doc (getExistingTags db) r).name
      (analyzeWithAI title doc (getExistingTags db) r).description =
      ((runPipeline db tid title doc r now1).db, t.id) :=
    findOrCreateTag_found hfind2
  have hanalysis :
      analyzeWithAI title doc
          (getExistingTags (runPipeline db tid title doc r now1).db) r =
        analyzeWithAI title doc (getExistingTags db) r := rfl
  have hlink2 : isTicketTagLinked (runPipeline db tid title doc r now1).db
      tid t.id = true :=
    runPipeline_linked db tid title doc r now1 t.id htid
  have hid : (findOrCreateTag db
      (analyzeWithAI title doc (getExistingTags db) r).name
      (analyzeWithAI title doc (getExistingTags db) r).description).2 =
      t.id := by
    have h0 := runPipeline_tagId db tid title doc r now1
    rw [htid] at h0
    exact (Option.some.inj h0).symm
  refine ⟨?_, ?_, ?_, ?_⟩
  · rw [runPipeline_db (runPipeline db tid title doc r now1).db tid title
      doc r now2, hanalysis, hfc2]
    simp [hlink2]
  · rw [runPipeline_tagId (runPipeline db tid title doc r now1).db tid
      title doc r now2, hanalysis, hfc2, htid]
  · rw [runPipeline_effects (runPipeline db tid title doc r now1).db tid
      title doc r now2, hanalysis, hfc2, hfind2]
    simp [hlink2]
  · intro tg htg
    rw [htid] at htg
    rw [← Option.some.inj htg]
    rw [runPipeline_db db tid title doc r now1, ← hid]
    cases hlink1 : isTicketTagLinked
        (findOrCreateTag db
          (analyzeWithAI title doc (getExistingTags db) r).name
          (analyzeWithAI title doc (getExistingTags db) r).description).1
        tid
        (findOrCreateTag db
          (analyzeWithAI title doc (getExistingTags db) r).name
          (analyzeWithAI title doc (getExistingTags db) r).description).2
    case true =>
        rw [if_pos rfl, findOrCreateTag_fst_ticketsTags]
        have hpos := linksFor_length_pos_of_linked hlink1
        rw [findOrCreateTag_fst_ticketsTags] at hpos
        have hle := hcount (findOrCreateTag db
          (analyzeWithAI title doc (getExistingTags db) r).name
          (analyzeWithAI title doc (getExistingTags db) r).description).2
        omega
    case false =>
        rw [if_neg (by decide)]
        have hnil := linksFor_eq_nil_of_not_linked hlink1
        unfold linksFor at hnil ⊢
        simp only [linkTicketToTag]
        rw [List.filter_append, hnil]
        simp

/-- C2: calling `analyzeAndSaveHotIssue` twice with the same inputs (which
resolve to the same `(ticketId, tagId)` pair) leaves exactly one
TicketTagLink row for that pair: the second call resolves the same tag id,
detects the existing link, performs no insert (no storage write in its
trace), and changes nothing — in particular the confidence stored by the
first call is never overwritten. The store is assumed to start with at
most one link per pair, the invariant the code maintains. -/
theorem analyzeAndSaveHotIssue_idempotent (cfg : OpenAIConfig)
    (db : DBState) (tid title : String) (doc : TicketDoc)
    (r : AIAnalysisResult) (now1 now2 : Int)
    (hk : truthy cfg.apiKey = true) (hm : truthy cfg.analysisModel = true)
    (hcount : ∀ tg, (linksFor db.ticketsTags tid tg).length ≤ 1) :
    (analyzeAndSaveHotIssue cfg
        (analyzeAndSaveHotIssue cfg db tid title doc r now1).db tid title
        doc r now2).db =
      (analyzeAndSaveHotIssue cfg db tid title doc r now1).db
    ∧ (analyzeAndSaveHotIssue cfg
        (analyzeAndSaveHotIssue cfg db tid title doc r now1).db tid title
        doc r now2).outcome = Except.ok ()
    ∧ (analyzeAndSaveHotIssue cfg
        (analyzeAndSaveHotIssue cfg db tid title doc r now1).db tid title
        doc r now2).tagId =
      (analyzeAndSaveHotIssue cfg db tid title doc r now1).tagId
    ∧ Effect.storageWrite ∉
        (analyzeAndSaveHotIssue cfg
          (analyzeAndSaveHotIssue cfg db tid title doc r now1).db tid
          title doc r now2).effects
    ∧ (∀ tg,
        (analyzeAndSaveHotIssue cfg db tid title doc r now1).tagId =
          some tg →
        (linksFor (analyzeAndSaveHotIssue cfg db tid title doc r
            now1).db.ticketsTags tid tg).length = 1) := by
  rw [analyzeAndSaveHotIssue_configOk hk hm db tid title doc r now1]
  rw [analyzeAndSaveHotIssue_configOk hk hm
    (runPipeline db tid title doc r now1).db tid title doc r now2]
  obtain ⟨h1, h2, h3, h4⟩ :=
    runPipeline_rerun db tid title doc r now1 now2 hcount
  exact ⟨h1, runPipeline_outcome _ tid title doc r now2, h2, h3, h4⟩

/-- C2 witness: on an empty store, after one run the resolved pair has
exactly one link row. -/
theorem analyzeAndSaveHotIssue_idempotent_witness :
    (linksFor (analyzeAndSaveHotIssue ⟨some "kw", some "mw"⟩
        ⟨[], [], 1, 1⟩ "tw" "ti" ⟨"d", []⟩
        ⟨"网络问题", "desc", mkRat 4 5, none⟩ 7).db.ticketsTags
      "tw" 1).length = 1 :=
  (analyzeAndSaveHotIssue_idempotent ⟨some "kw", some "mw"⟩ ⟨[], [], 1, 1⟩
      "tw" "ti" ⟨"d", []⟩ ⟨"网络问题", "desc", mkRat 4 5, none⟩ 7 8 rfl rfl
      (fun tg => by simp [linksFor])).2.2.2.2 1 (by decide)

end HotIssue
